import Mathlib

/-!
Shallow embedding of the LinkedIn profile-picture auto-updater, verified
against its natural-language specification.

Components modelled from the JavaScript sources:
* `Scheduler` — the background service worker tick
  (`LinkedInAutoUpdater.handleScheduledUpdate`).
* `Limiter` — the sliding-window `RateLimiter` of
  `backend/image-generator.js`, with sequential and concurrent
  (event-interleaved) execution models.
* `Generator` — `ImageGenerator.generateImages`, `getStoredImages`,
  `clearStoredImages`, and the local variation pipeline
  `generateSingleImageLocal`.
* `Server` — the Express routes `GET /images` and
  `POST /generate-from-base` of `backend/server.js`.

Effectful operations (file reads and writes, network calls) are modelled by
explicit oracles recording each call's outcome, so the control flow of the
source translates to pure functions.
-/

namespace Scheduler

/-- One stored image as seen by the background script: the backend URL path
and the filename (built in `getStoredImages` of the service worker). -/
structure StoredImageRef where
  path : String
  name : String
  deriving DecidableEq, Repr

/-- The persisted settings consumed by `handleScheduledUpdate`
(`chrome.storage.sync` keys `isEnabled`, `currentImageIndex`, `lastUpdate`). -/
structure SchedulerSettings where
  isEnabled : Bool
  currentImageIndex : Nat
  lastUpdate : Option Int
  deriving DecidableEq, Repr

/-- Observable outcome of one scheduler tick: which image (if any) was sent
to the content script with the `updateProfilePicture` command, and the
settings written back. -/
structure TickResult where
  sentImage : Option StoredImageRef
  settings : SchedulerSettings
  deriving DecidableEq, Repr

/-- Embedding of `LinkedInAutoUpdater.handleScheduledUpdate`: abort when
disabled or when the image list is empty; otherwise select
`images[currentImageIndex % images.length]`, send the apply command, and
— regardless of the content script's acknowledgement `ackPositive`, whose
absence only produces a console warning — advance
`currentImageIndex := (currentImageIndex + 1) % images.length` and set
`lastUpdate := now`. -/
def handleScheduledUpdate (settings : SchedulerSettings)
    (images : List StoredImageRef) (now : Int) (ackPositive : Bool) :
    TickResult :=
  if settings.isEnabled = false then
    { sentImage := none, settings := settings }
  else if h : images.length = 0 then
    { sentImage := none, settings := settings }
  else
    let _ := ackPositive
    { sentImage := some (images.get ⟨settings.currentImageIndex % images.length,
        Nat.mod_lt _ (Nat.pos_of_ne_zero h)⟩),
      settings := { settings with
        currentImageIndex := (settings.currentImageIndex + 1) % images.length,
        lastUpdate := some now } }

end Scheduler

namespace Generator

/-- One processing step of the `sharp` pipeline used by
`generateSingleImageLocal`. -/
inductive ImgOp where
  | resize (width height : Nat)
  | modulate (saturation brightness : ℚ) (hue : Int)
  | blur (sigma : ℚ)
  | pngOutput (quality : Nat)
  deriving DecidableEq, Repr

/-- Embedding of `ImageGenerator.generateSingleImageLocal` (the deterministic
local variation strategy): the pipeline of `sharp` operations applied to the
base photo for item index `i`. The `blur` step is guarded by JavaScript
truthiness of the computed `blur` value (`if (blur) img = img.blur(blur)`). -/
def generateSingleImageLocal (i : Nat) : List ImgOp :=
  let saturation : ℚ := 1 + (i % 5) * 0.06
  let brightness : ℚ := 1 + (i % 3) * 0.03
  let hue : Int := (i % 6) * 20
  let blur : ℚ := if i % 4 = 0 then 0.3 else 0
  [ImgOp.resize 1024 1024, ImgOp.modulate saturation brightness hue]
    ++ (if blur ≠ 0 then [ImgOp.blur blur] else [])
    ++ [ImgOp.pngOutput 92]

end Generator

namespace Generator

/-- The fixed prompt table returned by `generateVariationPrompts` (20
entries, cycled through with `i % variations.length`). Only its length and
indexing matter for the verified properties, so entries are numbered. -/
def variationPrompts : List String :=
  (List.range 20).map (fun i => "variation-prompt-" ++ toString i)

/-- One produced item as pushed onto `generatedImages`: the loop index it
came from, the produced bytes, and the prompt label stored with it. -/
structure GenItem (α : Type) where
  index : Nat
  data : α
  prompt : String
  deriving DecidableEq, Repr

/-- Result of `generateImages`: the returned object together with the
file-system effects (image files written, metadata written). -/
structure GenResult (α : Type) where
  success : Bool
  error : Option String
  images : List (GenItem α)
  fileWrites : List (GenItem α)
  metadataWritten : Bool
  deriving DecidableEq, Repr

/-- Oracle recording the outcome of every effectful call `generateImages`
makes: reading the base photo, the one-off subject extraction of local
mode, the per-item local composite, the per-item remote API call, and the
per-item local fallback taken when the API call fails. `none` means the
call threw. -/
structure GenEnv (α : Type) where
  localMode : Bool
  baseRead : Option α
  extractSubject : Option α
  localItem : Nat → Option α
  remote : Nat → Option α
  fallbackItem : Nat → Option α

/-- Shorthand for the failure return of `generateImages` (the outer
`catch`), which happens before any file is written when validation or the
base-photo read throws. -/
def genFailure (α : Type) (msg : String) : GenResult α :=
  { success := false, error := some msg, images := [],
    fileWrites := [], metadataWritten := false }

/-- Body of the per-item `try`/`catch` of the API path: try the remote API
call, on failure take the one-shot local fallback, and when both fail skip
the item (`none`) while the loop continues. -/
def apiItem (env : GenEnv α) (i : Nat) : Option (GenItem α) :=
  match env.remote i with
  | some d =>
    some { index := i, data := d,
           prompt := variationPrompts.getD (i % variationPrompts.length) "" }
  | none => (env.fallbackItem i).map (fun d =>
      { index := i, data := d, prompt := "local-fallback" })

/-- Body of the per-item `try`/`catch` of local mode: the background
composite for item `i`, skipped on failure. -/
def localModeItem (env : GenEnv α) (i : Nat) : Option (GenItem α) :=
  (env.localItem i).map (fun d =>
    { index := i, data := d, prompt := "local-background" })

/-- Embedding of `ImageGenerator.generateImages`: validate
`numImages ∈ [1, 50]` up front (throwing to the outer catch, before any
write); read the base photo; then loop over the `numImages` items with a
per-item `try`/`catch` — in local mode each item is the background
composite, otherwise the remote API call with a one-shot local fallback —
skipping an item when all of its strategies fail and continuing with the
rest; finally write the metadata summary and report success with the items
actually produced. -/
def generateImages (env : GenEnv α) (numImages : Int) : GenResult α :=
  if numImages < 1 ∨ numImages > 50 then
    genFailure α "Number of images must be between 1 and 50"
  else
    match env.baseRead with
    | none => genFailure α "base photo read failed"
    | some _ =>
      if env.localMode then
        match env.extractSubject with
        | none => genFailure α "subject extraction failed"
        | some _ =>
          let items := (List.range numImages.toNat).filterMap (localModeItem env)
          { success := true, error := none, images := items,
            fileWrites := items, metadataWritten := true }
      else
        let items := (List.range numImages.toNat).filterMap (apiItem env)
        { success := true, error := none, images := items,
          fileWrites := items, metadataWritten := true }

/-- Predicate of the `readdir` result filters in `getStoredImages` and
`clearStoredImages`: keep files ending in `.png`, `.jpg` or `.jpeg`. -/
def isImageFile (file : String) : Bool :=
  file.endsWith ".png" || file.endsWith ".jpg" || file.endsWith ".jpeg"

/-- One stored image as returned by `getStoredImages`. -/
structure StoredImage where
  filename : String
  filepath : String
  deriving DecidableEq, Repr

/-- The storage directory as seen through `readdir`: `none` when the read
fails (directory missing or unreadable), otherwise the list of
filenames. -/
abbrev StorageDir := Option (List String)

/-- Embedding of `ImageGenerator.getStoredImages`: list the image files of
the storage directory; every error is caught internally and turned into
the empty list. -/
def getStoredImages (storagePath : String) (dir : StorageDir) :
    List StoredImage :=
  match dir with
  | none => []
  | some files =>
    (files.filter isImageFile).map (fun filename =>
      { filename := filename, filepath := storagePath ++ "/" ++ filename })

/-- Result object of `clearStoredImages`. -/
structure ClearResult where
  success : Bool
  count : Option Nat
  error : Option String
  deriving DecidableEq, Repr

/-- Embedding of `ImageGenerator.clearStoredImages`: unlink every image
file of the storage directory and report how many were deleted; a
`readdir` failure is caught and reported as `success := false`. Returns
the result together with the directory contents afterwards. -/
def clearStoredImages (dir : StorageDir) : ClearResult × StorageDir :=
  match dir with
  | none => ({ success := false, count := none,
               error := some "readdir failed" }, none)
  | some files =>
    ({ success := true, count := some (files.filter isImageFile).length,
       error := none },
     some (files.filter (fun f => !(isImageFile f))))

end Generator

namespace Server

/-- Response shape observed from the `GET /images` route: HTTP status and
the JSON body fields. -/
structure ImagesListResponse where
  status : Nat
  success : Bool
  count : Option Nat
  error : Option String
  deriving DecidableEq, Repr

/-- Embedding of the `GET /images` route of `backend/server.js`: call
`getStoredImages` and answer `200 {success:true, count, images}`. The
route's own `catch` (which would answer `500 {success:false, error}`) is
unreachable for storage failures because `getStoredImages` catches them
itself and returns the empty list. -/
def getImagesRoute (storagePath : String)
    (dir : Generator.StorageDir) : ImagesListResponse :=
  let images := Generator.getStoredImages storagePath dir
  { status := 200, success := true, count := some images.length,
    error := none }

/-- Index of the last `.` of a character list, if any. -/
def lastDotIdx : List Char → Option Nat
  | [] => none
  | c :: cs =>
    match lastDotIdx cs with
    | some i => some (i + 1)
    | none => if c = '.' then some 0 else none

/-- Embedding of Node's `path.extname` on a bare filename: the suffix from
the last `.`, and the empty string when there is no dot or the only dot
leads the name (dotfile). -/
def extname (file : String) : String :=
  match lastDotIdx file.data with
  | none => ""
  | some 0 => ""
  | some i => String.mk (file.data.drop i)

/-- ASCII lowercasing of one character, as `toLowerCase` acts on the
letters of a file extension. -/
def lowerChar (c : Char) : Char :=
  if 'A' ≤ c ∧ c ≤ 'Z' then Char.ofNat (c.toNat + 32) else c

/-- ASCII lowercasing of a string (JavaScript `toLowerCase` restricted to
the ASCII range, which covers every extension compared here). -/
def toLowerAscii (s : String) : String := String.mk (s.data.map lowerChar)

/-- The allowed base-photo extensions of the `/generate-from-base` route. -/
def allowedExtensions : List String := [".png", ".jpg", ".jpeg", ".webp"]

/-- Test applied by the route to each file of the base-photo folder:
`allowed.includes(path.extname(f).toLowerCase())`. -/
def hasAllowedExt (file : String) : Bool :=
  allowedExtensions.contains (toLowerAscii (extname file))

/-- The 400 error message of the route when no base photo is found. -/
def missingBaseMsg (basePfpDir : String) : String :=
  "No base photo found in " ++ basePfpDir ++
    ". Add a .png/.jpg/.jpeg/.webp file."

/-- Response of the `POST /generate-from-base` route, together with the
count the route passed to `generateImages` (`none` when generation was
never invoked). -/
structure GenFromBaseResponse where
  status : Nat
  success : Bool
  error : Option String
  countPassed : Option Int
  genCount : Option Nat
  deriving DecidableEq, Repr

/-- Embedding of the `POST /generate-from-base` route: clamp the parsed
`numImages` with `Math.max(1, Math.min(50, parseInt(numImages)))` (the
argument is the integer `parseInt` produced, i.e. the request's number
truncated toward zero), look for the first file of the base folder with an
allowed extension, answer `400` with the missing-base message when there is
none, and otherwise run `generateImages` with the clamped count, answering
`200` on success and `500` on failure. -/
def generateFromBaseRoute (env : Generator.GenEnv α) (basePfpDir : String)
    (baseFiles : List String) (numImages : Int) : GenFromBaseResponse :=
  let count : Int := max 1 (min 50 numImages)
  match baseFiles.find? hasAllowedExt with
  | none =>
    { status := 400, success := false,
      error := some (missingBaseMsg basePfpDir),
      countPassed := none, genCount := none }
  | some _ =>
    let result := Generator.generateImages env count
    if result.success then
      { status := 200, success := true, error := none,
        countPassed := some count, genCount := some result.images.length }
    else
      { status := 500, success := false, error := result.error,
        countPassed := some count, genCount := none }

end Server

namespace Limiter

/-- JavaScript `Math.min(...list)` on a list of timestamps. The empty case
is unreachable in the source (the list has length at least `maxRequests`,
and the limiter is constructed with `maxRequests = 5`); `0` stands in for
the empty spread. -/
def jsMin : List Int → Int
  | [] => 0
  | t :: ts => ts.foldl min t

/-- Result of one sequential `RateLimiter.wait()` call: the time at which
the call returns and the `requests` list it leaves behind. -/
structure WaitResult where
  finish : Int
  state : List Int
  deriving Repr

/-- Embedding of `RateLimiter.wait` for a single (non-interleaved) caller
entering at time `now`: prune timestamps with `now - time < timeWindow`,
and if at least `maxRequests` remain, sleep for
`timeWindow - (now - oldest) + 1000` milliseconds; in both cases the stale
entry time `now` — not the post-sleep time — is pushed. -/
def wait (maxRequests timeWindow : Nat) (requests : List Int) (now : Int) :
    WaitResult :=
  let kept := requests.filter (fun t => now - t < (timeWindow : Int))
  if maxRequests ≤ kept.length then
    let oldestRequest := jsMin kept
    let waitTime := (timeWindow : Int) - (now - oldestRequest) + 1000
    { finish := now + waitTime, state := kept ++ [now] }
  else
    { finish := now, state := kept ++ [now] }

/-- Number of recorded timestamps lying within the trailing window of
length `timeWindow` at time `now`. -/
def inWindow (timeWindow : Nat) (now : Int) (requests : List Int) : Nat :=
  (requests.filter (fun t => now - t < (timeWindow : Int))).length

/-- Sequential run of `wait()` by a single caller: each call enters at the
later of its arrival time and the previous call's return time, and the list
of `(returnTime, requestsAfter)` pairs is collected. -/
def seqRun (maxRequests timeWindow : Nat) (requests : List Int)
    (clock : Int) : List Int → List (Int × List Int)
  | [] => []
  | a :: as =>
    let s := max a clock
    let r := wait maxRequests timeWindow requests s
    (r.finish, r.state) :: seqRun maxRequests timeWindow r.state r.finish as

/-- One atomic segment of a (possibly interleaved) `wait()` call on the
single-threaded event loop: `enter t` runs the synchronous prefix of the
call (prune, check, either admit immediately or schedule a timer), and
`resume tEnter t` runs the continuation after `await setTimeout` of a call
that entered at `tEnter`, pushing the stale `tEnter`. -/
inductive LimiterEvent where
  | enter (t : Int)
  | resume (tEnter t : Int)
  deriving DecidableEq, Repr

/-- Shared state of the concurrent limiter model: the event-loop clock, the
`requests` list, and the scheduled timers as `(wakeTime, enterTime)`
pairs. -/
structure ConcState where
  clock : Int
  requests : List Int
  pending : List (Int × Int)
  deriving DecidableEq, Repr

/-- One step of the concurrent model. Returns `none` when the event is not
schedulable (time regression, firing before a due timer, or a resume with
no matching pending timer); otherwise the new state together with the
admission this event produced (`some (admissionTime, requestsAfter)`), if
any. Resumes fire exactly at their scheduled wake time, and no event runs
while an earlier timer is overdue. -/
def concStep (maxRequests timeWindow : Nat) (st : ConcState)
    (e : LimiterEvent) : Option (ConcState × Option (Int × List Int)) :=
  match e with
  | .enter t =>
    if st.clock ≤ t ∧ st.pending.all (fun p => t ≤ p.1) then
      let kept := st.requests.filter (fun x => t - x < (timeWindow : Int))
      if maxRequests ≤ kept.length then
        let oldestRequest := jsMin kept
        let wake := t + ((timeWindow : Int) - (t - oldestRequest) + 1000)
        some ({ clock := t, requests := kept,
                pending := st.pending ++ [(wake, t)] }, none)
      else
        some ({ clock := t, requests := kept ++ [t],
                pending := st.pending }, some (t, kept ++ [t]))
    else none
  | .resume tEnter t =>
    if st.clock ≤ t ∧ st.pending.all (fun p => t ≤ p.1) ∧
        (t, tEnter) ∈ st.pending then
      let requests := st.requests ++ [tEnter]
      some ({ clock := t, requests := requests,
              pending := st.pending.erase (t, tEnter) }, some (t, requests))
    else none

/-- Run a schedule of interleaved events; `none` when the schedule is not
realizable, otherwise the final state and the list of admissions
`(admissionTime, requestsAfter)` in order. -/
def concRun (maxRequests timeWindow : Nat) (st : ConcState) :
    List LimiterEvent → Option (ConcState × List (Int × List Int))
  | [] => some (st, [])
  | e :: es =>
    match concStep maxRequests timeWindow st e with
    | none => none
    | some (st1, adm) =>
      match concRun maxRequests timeWindow st1 es with
      | none => none
      | some (stf, adms) => some (stf, adm.toList ++ adms)

/-- Schedule refuting the window invariant for interleaved callers, with
`maxRequests = 5` and `timeWindow = 60000`: five admissions at time `0`;
five callers enter at `59999`, find the window full and schedule wakeups
for `61000`; at `60001` the five original timestamps have left the window,
so five fresh callers are admitted immediately; at `61000` the five
sleepers wake and each records its stale entry time `59999` — which is
back inside the trailing window — without re-checking the count. -/
def overfillSchedule : List LimiterEvent :=
  [.enter 0, .enter 0, .enter 0, .enter 0, .enter 0,
   .enter 59999, .enter 59999, .enter 59999, .enter 59999, .enter 59999,
   .enter 60001, .enter 60001, .enter 60001, .enter 60001, .enter 60001,
   .resume 59999 61000, .resume 59999 61000, .resume 59999 61000,
   .resume 59999 61000, .resume 59999 61000]

end Limiter

namespace Limiter

/-- A left fold of `min` lands on its seed or on a list element. -/
theorem foldl_min_mem (ts : List Int) (a : Int) :
    ts.foldl min a = a ∨ ts.foldl min a ∈ ts := by
  induction ts generalizing a with
  | nil => exact Or.inl rfl
  | cons t ts ih =>
    rcases ih (min a t) with h | h
    · rcases min_choice a t with h2 | h2
      · exact Or.inl (by rw [List.foldl_cons, h, h2])
      · exact Or.inr (by rw [List.foldl_cons, h, h2]; exact List.mem_cons_self t ts)
    · exact Or.inr (List.mem_cons_of_mem t (by rw [List.foldl_cons]; exact h))

/-- On a non-empty list, `jsMin` returns one of the elements. -/
theorem jsMin_mem {l : List Int} (h : l ≠ []) : jsMin l ∈ l := by
  match l with
  | [] => exact absurd rfl h
  | t :: ts =>
    rcases foldl_min_mem ts t with h2 | h2
    · show ts.foldl min t ∈ t :: ts
      rw [h2]; exact List.mem_cons_self t ts
    · exact List.mem_cons_of_mem t h2

/-- Central step lemma of the sequential invariant: a `wait()` call entered
at time `s`, when at most `maxR` recorded timestamps are inside the window
at `s`, returns no earlier than `s` and leaves a state whose in-window
count stays at most `maxR` from the return time on. The blocked branch
relies on the oldest kept timestamp having aged out of the window by the
time the sleep ends. -/
theorem wait_preserves (maxR W : Nat) (hmax : 0 < maxR) (st : List Int) (s : Int)
    (hcount : inWindow W s st ≤ maxR) :
    s ≤ (wait maxR W st s).finish ∧
      ∀ u : Int, (wait maxR W st s).finish ≤ u →
        inWindow W u (wait maxR W st s).state ≤ maxR := by
  set kept := st.filter (fun t => s - t < (W : Int)) with hk
  have hcount2 : kept.length ≤ maxR := hcount
  by_cases hb : maxR ≤ kept.length
  · have hlen : kept.length = maxR := le_antisymm hcount2 hb
    have hne : kept ≠ [] := by
      intro hnil
      rw [hnil] at hlen
      simp at hlen
      omega
    have homem : jsMin kept ∈ kept := jsMin_mem hne
    have holt : s - jsMin kept < (W : Int) := by
      have h2 := (List.mem_filter.mp (hk ▸ homem)).2
      simpa using h2
    have hwait : wait maxR W st s =
        ⟨s + ((W : Int) - (s - jsMin kept) + 1000), kept ++ [s]⟩ := by
      simp only [wait, ← hk, if_pos hb]
    rw [hwait]
    constructor
    · show s ≤ s + ((W : Int) - (s - jsMin kept) + 1000)
      omega
    · intro u hu
      have hu2 : s + ((W : Int) - (s - jsMin kept) + 1000) ≤ u := hu
      show ((kept ++ [s]).filter (fun t => u - t < (W : Int))).length ≤ maxR
      rw [List.filter_append, List.length_append]
      have h1 : ((kept).filter (fun t => u - t < (W : Int))).length < kept.length := by
        refine List.length_filter_lt_length_iff_exists.mpr ⟨jsMin kept, homem, ?_⟩
        simp only [decide_eq_true_eq]
        omega
      have h2 : (([s] : List Int).filter (fun t => u - t < (W : Int))).length ≤ 1 := by
        simpa using List.length_filter_le (fun t => u - t < (W : Int)) [s]
      omega
  · have hwait : wait maxR W st s = ⟨s, kept ++ [s]⟩ := by
      simp only [wait, ← hk, if_neg hb]
    rw [hwait]
    refine ⟨le_refl s, ?_⟩
    intro u hu
    show ((kept ++ [s]).filter (fun t => u - t < (W : Int))).length ≤ maxR
    rw [List.filter_append, List.length_append]
    have h1 : ((kept).filter (fun t => u - t < (W : Int))).length ≤ kept.length :=
      List.length_filter_le _ _
    have h2 : (([s] : List Int).filter (fun t => u - t < (W : Int))).length ≤ 1 := by
      simpa using List.length_filter_le (fun t => u - t < (W : Int)) [s]
    have h3 : kept.length < maxR := not_le.mp hb
    omega

/-- The sequential-run invariant: starting from a state whose in-window
count is at most `maxR` from the current clock on, every admission of a
sequential run observes an in-window count of at most `maxR`. -/
theorem seqRun_inWindow (maxR W : Nat) (hmax : 0 < maxR)
    (arrivals : List Int) :
    ∀ (st : List Int) (clock : Int),
      (∀ u : Int, clock ≤ u → inWindow W u st ≤ maxR) →
      ∀ p ∈ seqRun maxR W st clock arrivals, inWindow W p.1 p.2 ≤ maxR := by
  induction arrivals with
  | nil =>
    intro st clock _ p hp
    simp [seqRun] at hp
  | cons a as ih =>
    intro st clock hinv p hp
    simp only [seqRun] at hp
    have hcount : inWindow W (max a clock) st ≤ maxR :=
      hinv (max a clock) (le_max_right a clock)
    obtain ⟨hfin, hnew⟩ := wait_preserves maxR W hmax st (max a clock) hcount
    rcases List.mem_cons.mp hp with h | h
    · rw [h]
      exact hnew _ le_rfl
    · exact ih _ _ hnew p h

/-- Pruning at the entry time keeps a list whose elements all equal the
entry time itself. -/
theorem filter_replicate_window (t0 : Int) (W : Nat) (hW : 0 < W) (k : Nat) :
    (List.replicate k t0).filter (fun t => t0 - t < (W : Int)) =
      List.replicate k t0 := by
  induction k with
  | zero => rfl
  | succ n ih =>
    rw [List.replicate_succ, List.filter_cons]
    have hcond : t0 - t0 < (W : Int) := by omega
    simp only [decide_eq_true_eq]
    rw [if_pos hcond, ih]

/-- On a constant non-empty list, `jsMin` is that constant. -/
theorem jsMin_replicate (t0 : Int) (k : Nat) :
    jsMin (List.replicate (k + 1) t0) = t0 := by
  have h1 : jsMin (List.replicate (k + 1) t0) ∈ List.replicate (k + 1) t0 :=
    jsMin_mem (by simp)
  exact List.eq_of_mem_replicate h1

/-- A call entered at `t0` with fewer than `maxRequests = 5` recorded
timestamps (all `t0`) is admitted immediately. -/
theorem wait_rep_under (t0 : Int) (k : Nat) (hk : k < 5) :
    wait 5 60000 (List.replicate k t0) t0 = ⟨t0, List.replicate (k + 1) t0⟩ := by
  simp only [wait, filter_replicate_window t0 60000 (by omega) k,
    List.length_replicate]
  rw [if_neg (by omega), ← List.replicate_succ']

/-- A call entered at `t0` with the window already holding five timestamps
`t0` sleeps for `60000 - 0 + 1000` milliseconds and returns at
`t0 + 61000`. -/
theorem wait_rep_full (t0 : Int) :
    wait 5 60000 (List.replicate 5 t0) t0 =
      ⟨t0 + 61000, List.replicate 6 t0⟩ := by
  have hj : jsMin (List.replicate 5 t0) = t0 := jsMin_replicate t0 4
  simp only [wait, filter_replicate_window t0 60000 (by omega) 5,
    List.length_replicate, hj]
  rw [if_pos (by omega), ← List.replicate_succ']
  have harith : t0 + (((60000 : Nat) : Int) - (t0 - t0) + 1000) = t0 + 61000 := by
    push_cast
    omega
  rw [harith]

/-- Full trace of six back-to-back `wait()` calls of a single caller
starting from an idle limiter at time `t0`: the first five admissions
return immediately at `t0` and the sixth returns at `t0 + 61000`. -/
theorem backToBack_trace (t0 : Int) :
    seqRun 5 60000 [] t0 [t0, t0, t0, t0, t0, t0] =
      [(t0, List.replicate 1 t0), (t0, List.replicate 2 t0),
       (t0, List.replicate 3 t0), (t0, List.replicate 4 t0),
       (t0, List.replicate 5 t0), (t0 + 61000, List.replicate 6 t0)] := by
  have w0 : wait 5 60000 [] t0 = ⟨t0, List.replicate 1 t0⟩ :=
    wait_rep_under t0 0 (by omega)
  have w1 : wait 5 60000 (List.replicate 1 t0) t0 = ⟨t0, List.replicate 2 t0⟩ :=
    wait_rep_under t0 1 (by omega)
  have w2 : wait 5 60000 (List.replicate 2 t0) t0 = ⟨t0, List.replicate 3 t0⟩ :=
    wait_rep_under t0 2 (by omega)
  have w3 : wait 5 60000 (List.replicate 3 t0) t0 = ⟨t0, List.replicate 4 t0⟩ :=
    wait_rep_under t0 3 (by omega)
  have w4 : wait 5 60000 (List.replicate 4 t0) t0 = ⟨t0, List.replicate 5 t0⟩ :=
    wait_rep_under t0 4 (by omega)
  have w5 : wait 5 60000 (List.replicate 5 t0) t0 = ⟨t0 + 61000, List.replicate 6 t0⟩ :=
    wait_rep_full t0
  simp only [seqRun, max_self, w0, w1, w2, w3, w4, w5]

end Limiter

namespace Generator

/-- Filtering with a predicate after keeping only its complement yields
the empty list. -/
theorem filter_after_filter_not {α : Type} (p : α → Bool) (l : List α) :
    (l.filter (fun f => !(p f))).filter p = [] := by
  induction l with
  | nil => rfl
  | cons a as ih =>
    by_cases h : p a
    · simp [List.filter_cons, h, ih]
    · simp [List.filter_cons, h, ih]

/-- An API-path item is produced exactly when the remote call or the local
fallback for its index succeeds. -/
theorem apiItem_isSome {α : Type} (env : GenEnv α) (i : Nat) :
    (apiItem env i).isSome = true ↔
      ((env.remote i).isSome = true ∨ (env.fallbackItem i).isSome = true) := by
  unfold apiItem
  cases hr : env.remote i with
  | some d => simp
  | none =>
    cases hf : env.fallbackItem i with
    | some d => simp
    | none => simp

/-- A produced API-path item carries the loop index it came from. -/
theorem apiItem_index {α : Type} (env : GenEnv α) (i : Nat)
    (it : GenItem α) (h : apiItem env i = some it) : it.index = i := by
  unfold apiItem at h
  cases hr : env.remote i with
  | some d =>
    rw [hr] at h
    cases h
    rfl
  | none =>
    rw [hr] at h
    cases hf : env.fallbackItem i with
    | some d =>
      rw [hf] at h
      cases h
      rfl
    | none =>
      rw [hf] at h
      cases h

end Generator

namespace Claims

/-- C1: a scheduler tick with the enabled flag set and a non-empty image
list selects the image at `currentImageIndex % images.length`, sends the
apply command, and advances `currentImageIndex` to
`(currentImageIndex + 1) % images.length` while recording
`lastUpdate := now`, for every acknowledgement value (including a missing
or negative one). -/
theorem scheduler_tick_advances (s : Scheduler.SchedulerSettings)
    (images : List Scheduler.StoredImageRef) (now : Int) (ack : Bool)
    (henabled : s.isEnabled = true) (hne : 0 < images.length) :
    (Scheduler.handleScheduledUpdate s images now ack).sentImage =
      some (images.get ⟨s.currentImageIndex % images.length,
        Nat.mod_lt _ hne⟩) ∧
    (Scheduler.handleScheduledUpdate s images now ack).settings.currentImageIndex =
      (s.currentImageIndex + 1) % images.length ∧
    (Scheduler.handleScheduledUpdate s images now ack).settings.lastUpdate =
      some now := by
  have hz : ¬ images.length = 0 := Nat.pos_iff_ne_zero.mp hne
  simp [Scheduler.handleScheduledUpdate, henabled, hz]

/-- C1 witness: with a 3-image store, `currentImageIndex = 2`, the enabled
flag set and no positive acknowledgement, the tick selects image index
`2 % 3 = 2` and advances the index to `0`, recording the tick time. -/
theorem scheduler_tick_advances_witness :
    (Scheduler.handleScheduledUpdate ⟨true, 2, none⟩
      [⟨"u/a", "a"⟩, ⟨"u/b", "b"⟩, ⟨"u/c", "c"⟩] 5 false).sentImage =
        some ⟨"u/c", "c"⟩ ∧
    (Scheduler.handleScheduledUpdate ⟨true, 2, none⟩
      [⟨"u/a", "a"⟩, ⟨"u/b", "b"⟩, ⟨"u/c", "c"⟩] 5 false).settings.currentImageIndex = 0 ∧
    (Scheduler.handleScheduledUpdate ⟨true, 2, none⟩
      [⟨"u/a", "a"⟩, ⟨"u/b", "b"⟩, ⟨"u/c", "c"⟩] 5 false).settings.lastUpdate = some 5 := by
  have h := scheduler_tick_advances ⟨true, 2, none⟩
    [⟨"u/a", "a"⟩, ⟨"u/b", "b"⟩, ⟨"u/c", "c"⟩] 5 false rfl (by decide)
  exact ⟨h.1, h.2.1, h.2.2⟩

/-- C2 counterexample: the claimed invariant fails for interleaved
concurrent callers. In the schedule `Limiter.overfillSchedule` (with
`maxRequests = 5`, `windowMs = 60000`) five callers block at `t = 59999`
while the window is full; at `t = 60001` the original five timestamps have
left the window, so five fresh callers are admitted; at `t = 61000` the
five sleepers wake and each records its stale entry time `59999` — still
inside the trailing window — without re-checking, leaving 10 in-window
timestamps after the final admission. -/
theorem rateLimiter_window_invariant_refuted :
    ∃ res, Limiter.concRun 5 60000 ⟨0, [], []⟩ Limiter.overfillSchedule = some res ∧
      ¬ ∀ adm ∈ res.2, Limiter.inWindow 60000 adm.1 adm.2 ≤ 5 := by
  refine ⟨_, rfl, ?_⟩
  decide

/-- C2 amended: for a single sequential caller (each `wait()` entered no
earlier than the previous one returned), after every return the number of
recorded timestamps within the trailing window is at most `maxRequests`;
the timestamp recorded after a suspension is the call's entry time, not
the post-suspension admission time, and the invariant does not extend to
interleaved concurrent callers. -/
theorem rateLimiter_window_invariant_sequential (maxR W : Nat) (hmax : 0 < maxR)
    (t0 : Int) (arrivals : List Int) :
    ∀ p ∈ Limiter.seqRun maxR W [] t0 arrivals,
      Limiter.inWindow W p.1 p.2 ≤ maxR := by
  apply Limiter.seqRun_inWindow maxR W hmax arrivals [] t0
  intro u _
  simp [Limiter.inWindow]

/-- C2 witness: the sequential invariant at the concrete configuration
`maxRequests = 5`, `windowMs = 60000`, with seven calls, the sixth of
which blocks. -/
theorem rateLimiter_window_invariant_sequential_witness :
    0 < 5 ∧ ∀ p ∈ Limiter.seqRun 5 60000 [] 0 [0, 0, 0, 0, 0, 0, 70000],
      Limiter.inWindow 60000 p.1 p.2 ≤ 5 :=
  ⟨by decide, rateLimiter_window_invariant_sequential 5 60000 (by decide) 0 _⟩

/-- C3: with `maxRequests = 5` and `windowMs = 60000`, six back-to-back
`wait()` calls of a single caller starting from an idle limiter at any
time `t0` make the sixth call complete no earlier than `windowMs` after
the first admission (in fact at `t0 + 61000`, the safety margin
included). -/
theorem rateLimiter_backToBack_delay (t0 : Int) :
    ((Limiter.seqRun 5 60000 [] t0 [t0, t0, t0, t0, t0, t0]).map Prod.fst).getD 0 0
        + 60000 ≤
      ((Limiter.seqRun 5 60000 [] t0 [t0, t0, t0, t0, t0, t0]).map Prod.fst).getD 5 0 := by
  rw [Limiter.backToBack_trace t0]
  simp [List.getD]

/-- C4: for every integer `numImages` outside `[1, 50]`, `generateImages`
fails the whole call: it returns `success := false` with the
range-validation error message, and writes neither image files nor
metadata. -/
theorem generateImages_rejects_out_of_range (env : Generator.GenEnv Nat)
    (k : Int) (hk : k < 1 ∨ k > 50) :
    (Generator.generateImages env k).success = false ∧
    (Generator.generateImages env k).error =
      some "Number of images must be between 1 and 50" ∧
    (Generator.generateImages env k).fileWrites = [] ∧
    (Generator.generateImages env k).metadataWritten = false := by
  rw [Generator.generateImages, if_pos hk]
  exact ⟨rfl, rfl, rfl, rfl⟩

/-- C4 witness: at `numImages = 51` the call fails with the error message
and performs no writes, for a concrete oracle whose effectful calls would
all succeed. -/
theorem generateImages_rejects_out_of_range_witness :
    ((51 : Int) < 1 ∨ (51 : Int) > 50) ∧
    ((Generator.generateImages
        ⟨false, some 0, some 0, fun _ => some 0, fun _ => some 0,
         fun _ => some 0⟩ 51).success = false ∧
     (Generator.generateImages
        ⟨false, some 0, some 0, fun _ => some 0, fun _ => some 0,
         fun _ => some 0⟩ 51).error =
       some "Number of images must be between 1 and 50" ∧
     (Generator.generateImages
        ⟨false, some 0, some 0, fun _ => some 0, fun _ => some 0,
         fun _ => some 0⟩ 51).fileWrites = [] ∧
     (Generator.generateImages
        ⟨false, some 0, some 0, fun _ => some 0, fun _ => some 0,
         fun _ => some 0⟩ 51).metadataWritten = false) :=
  ⟨by decide, generateImages_rejects_out_of_range _ 51 (by decide)⟩

/-- C5: for every `numImages` in `[1, 50]` (API mode, base photo
readable), `generateImages` reports success and returns at most
`numImages` items; an item is present exactly when its remote call or its
local fallback succeeded, so a per-item failure never aborts the batch and
a doubly-failed item is skipped while the others are still processed. -/
theorem generateImages_per_item_fallback (env : Generator.GenEnv Nat)
    (k : Int) (b : Nat) (hmode : env.localMode = false)
    (hbase : env.baseRead = some b) (h1 : 1 ≤ k) (h2 : k ≤ 50) :
    (Generator.generateImages env k).success = true ∧
    (Generator.generateImages env k).images.length ≤ k.toNat ∧
    ∀ i : Nat,
      (∃ it ∈ (Generator.generateImages env k).images, it.index = i) ↔
        (i < k.toNat ∧
          ((env.remote i).isSome = true ∨ (env.fallbackItem i).isSome = true)) := by
  have hcond : ¬ (k < 1 ∨ k > 50) := by omega
  have hgen : Generator.generateImages env k =
      { success := true, error := none,
        images := (List.range k.toNat).filterMap (Generator.apiItem env),
        fileWrites := (List.range k.toNat).filterMap (Generator.apiItem env),
        metadataWritten := true } := by
    rw [Generator.generateImages, if_neg hcond, hbase]
    simp [hmode]
  rw [hgen]
  refine ⟨rfl, ?_, ?_⟩
  · calc ((List.range k.toNat).filterMap (Generator.apiItem env)).length
        ≤ (List.range k.toNat).length :=
          List.length_filterMap_le _ _
      _ = k.toNat := List.length_range _
  · intro i
    constructor
    · rintro ⟨it, hmem, hidx⟩
      obtain ⟨j, hj, hfj⟩ := List.mem_filterMap.mp hmem
      have hji : j = i := by
        rw [← hidx, Generator.apiItem_index env j it hfj]
      subst hji
      refine ⟨List.mem_range.mp hj, ?_⟩
      exact (Generator.apiItem_isSome env j).mp (by rw [hfj]; rfl)
    · rintro ⟨hik, hor⟩
      obtain ⟨it, hit⟩ := Option.isSome_iff_exists.mp
        ((Generator.apiItem_isSome env i).mpr hor)
      exact ⟨it, List.mem_filterMap.mpr ⟨i, List.mem_range.mpr hik, hit⟩,
        Generator.apiItem_index env i it hit⟩

/-- C5 witness: with three items requested, the remote call failing for
item 0 only and the fallback failing for every item, the batch still
succeeds: item 0 is skipped and items 1 and 2 are produced. -/
theorem generateImages_per_item_fallback_witness :
    ((⟨false, some 7, none, fun _ => none,
       fun i => if i = 0 then none else some i,
       fun _ => none⟩ : Generator.GenEnv Nat).localMode = false) ∧
    ((⟨false, some 7, none, fun _ => none,
       fun i => if i = 0 then none else some i,
       fun _ => none⟩ : Generator.GenEnv Nat).baseRead = some 7) ∧
    (1 ≤ (3 : Int)) ∧ ((3 : Int) ≤ 50) ∧
    ((Generator.generateImages
        ⟨false, some 7, none, fun _ => none,
         fun i => if i = 0 then none else some i, fun _ => none⟩ 3).success = true ∧
     (Generator.generateImages
        ⟨false, some 7, none, fun _ => none,
         fun i => if i = 0 then none else some i, fun _ => none⟩ 3).images.length ≤
       (3 : Int).toNat ∧
     ∀ i : Nat,
       (∃ it ∈ (Generator.generateImages
          ⟨false, some 7, none, fun _ => none,
           fun i => if i = 0 then none else some i, fun _ => none⟩ 3).images,
           it.index = i) ↔
         (i < (3 : Int).toNat ∧
           (((⟨false, some 7, none, fun _ => none,
              fun i => if i = 0 then none else some i,
              fun _ => none⟩ : Generator.GenEnv Nat).remote i).isSome = true ∨
            ((⟨false, some 7, none, fun _ => none,
              fun i => if i = 0 then none else some i,
              fun _ => none⟩ : Generator.GenEnv Nat).fallbackItem i).isSome = true))) :=
  ⟨rfl, rfl, by decide, by decide,
    generateImages_per_item_fallback _ 3 7 rfl rfl (by decide) (by decide)⟩

/-- C6 counterexample: a storage-directory read failure during
`GET /images` does not yield the uniform error body with a non-2xx
status — the route answers HTTP 200 with `success := true`, because
`getStoredImages` catches the error internally and returns the empty
list. -/
theorem getImages_read_failure_not_uniform_error :
    ¬ ((Server.getImagesRoute "generated-images" none).success = false ∧
       ((Server.getImagesRoute "generated-images" none).status < 200 ∨
         299 < (Server.getImagesRoute "generated-images" none).status)) := by
  decide

/-- C6 amended: errors thrown inside the `GET /images` handler itself
would be answered with a 500 error body, but a storage-directory read
failure never reaches the handler: `getStoredImages` swallows it and
returns the empty list, so the route answers
`200 {success := true, count := 0}`. -/
theorem getImages_read_failure_swallowed (storagePath : String) :
    Server.getImagesRoute storagePath none =
      { status := 200, success := true, count := some 0, error := none } := rfl

/-- C7: a `POST /generate-from-base` request made while no file of the
base-photo folder has an allowed image extension is answered with HTTP 400
and the missing-base-photo error message, and image generation is never
invoked. -/
theorem generateFromBase_missing_base (env : Generator.GenEnv Nat)
    (basePfpDir : String) (baseFiles : List String) (k : Int)
    (hnone : baseFiles.find? Server.hasAllowedExt = none) :
    (Server.generateFromBaseRoute env basePfpDir baseFiles k).status = 400 ∧
    (Server.generateFromBaseRoute env basePfpDir baseFiles k).success = false ∧
    (Server.generateFromBaseRoute env basePfpDir baseFiles k).error =
      some (Server.missingBaseMsg basePfpDir) ∧
    (Server.generateFromBaseRoute env basePfpDir baseFiles k).countPassed = none := by
  simp [Server.generateFromBaseRoute, hnone]

/-- C7 witness: a base folder holding only `notes.txt` and `README.md`
makes the route answer 400 with the missing-base message for a request of
five images. -/
theorem generateFromBase_missing_base_witness :
    (["notes.txt", "README.md"].find? Server.hasAllowedExt = none) ∧
    ((Server.generateFromBaseRoute
        (⟨false, some 0, none, fun _ => none, fun _ => some 0, fun _ => none⟩ :
          Generator.GenEnv Nat) "base-pfp" ["notes.txt", "README.md"] 5).status = 400 ∧
     (Server.generateFromBaseRoute
        (⟨false, some 0, none, fun _ => none, fun _ => some 0, fun _ => none⟩ :
          Generator.GenEnv Nat) "base-pfp" ["notes.txt", "README.md"] 5).success = false ∧
     (Server.generateFromBaseRoute
        (⟨false, some 0, none, fun _ => none, fun _ => some 0, fun _ => none⟩ :
          Generator.GenEnv Nat) "base-pfp" ["notes.txt", "README.md"] 5).error =
       some (Server.missingBaseMsg "base-pfp") ∧
     (Server.generateFromBaseRoute
        (⟨false, some 0, none, fun _ => none, fun _ => some 0, fun _ => none⟩ :
          Generator.GenEnv Nat) "base-pfp" ["notes.txt", "README.md"] 5).countPassed =
       none) :=
  ⟨by decide, generateFromBase_missing_base _ "base-pfp" _ 5 (by decide)⟩

/-- C8: whenever `clearStoredImages` succeeds, a subsequent
`getStoredImages` on the resulting directory returns the empty list, and a
second `clearStoredImages` immediately after also succeeds and reports 0
files deleted. -/
theorem clearImages_empties_and_idempotent (storagePath : String)
    (dir : Generator.StorageDir)
    (hsucc : (Generator.clearStoredImages dir).1.success = true) :
    Generator.getStoredImages storagePath (Generator.clearStoredImages dir).2 = [] ∧
    (Generator.clearStoredImages (Generator.clearStoredImages dir).2).1.success = true ∧
    (Generator.clearStoredImages (Generator.clearStoredImages dir).2).1.count =
      some 0 := by
  match dir with
  | none => simp [Generator.clearStoredImages] at hsucc
  | some files =>
    refine ⟨?_, rfl, ?_⟩
    · show Generator.getStoredImages storagePath
        (some (files.filter (fun f => !(Generator.isImageFile f)))) = []
      simp only [Generator.getStoredImages,
        Generator.filter_after_filter_not Generator.isImageFile files]
      rfl
    · show (some ((files.filter (fun f =>
          !(Generator.isImageFile f))).filter Generator.isImageFile).length :
            Option Nat) = some 0
      rw [Generator.filter_after_filter_not Generator.isImageFile files]
      rfl

/-- C8 witness: clearing a directory holding one image and the metadata
file leaves no listed image, and a second clear succeeds reporting 0
deletions. -/
theorem clearImages_empties_and_idempotent_witness :
    ((Generator.clearStoredImages (some ["a.png", "metadata.json"])).1.success = true) ∧
    (Generator.getStoredImages "generated-images"
        (Generator.clearStoredImages (some ["a.png", "metadata.json"])).2 = [] ∧
     (Generator.clearStoredImages
        (Generator.clearStoredImages (some ["a.png", "metadata.json"])).2).1.success =
       true ∧
     (Generator.clearStoredImages
        (Generator.clearStoredImages (some ["a.png", "metadata.json"])).2).1.count =
       some 0) :=
  ⟨by decide, clearImages_empties_and_idempotent "generated-images" _ (by decide)⟩

/-- C10: whenever a base photo is found, the `/generate-from-base` route
passes `max 1 (min 50 numImages)` to image generation — out-of-range
values are clamped into `[1, 50]` — and the request is processed rather
than rejected with a 400 invalid-argument response. -/
theorem generateFromBase_clamps_count (env : Generator.GenEnv Nat)
    (basePfpDir : String) (baseFiles : List String) (k : Int) (base : String)
    (hfound : baseFiles.find? Server.hasAllowedExt = some base) :
    (Server.generateFromBaseRoute env basePfpDir baseFiles k).countPassed =
      some (max 1 (min 50 k)) ∧
    (Server.generateFromBaseRoute env basePfpDir baseFiles k).status ≠ 400 ∧
    1 ≤ max 1 (min 50 k) ∧ max 1 (min 50 k) ≤ 50 := by
  have hb1 : (1 : Int) ≤ max 1 (min 50 k) := le_max_left 1 _
  have hb2 : max 1 (min 50 k) ≤ 50 := by omega
  simp only [Server.generateFromBaseRoute, hfound]
  split
  · exact ⟨rfl, by simp, hb1, hb2⟩
  · exact ⟨rfl, by simp, hb1, hb2⟩

/-- C10 witness: with a base photo `me.jpg` present, a request of 100
images is clamped to 50 and processed. -/
theorem generateFromBase_clamps_count_witness :
    (["me.jpg"].find? Server.hasAllowedExt = some "me.jpg") ∧
    ((Server.generateFromBaseRoute
        (⟨false, some 0, none, fun _ => none, fun _ => some 0, fun _ => none⟩ :
          Generator.GenEnv Nat) "base-pfp" ["me.jpg"] 100).countPassed =
        some (max 1 (min 50 100)) ∧
     (Server.generateFromBaseRoute
        (⟨false, some 0, none, fun _ => none, fun _ => some 0, fun _ => none⟩ :
          Generator.GenEnv Nat) "base-pfp" ["me.jpg"] 100).status ≠ 400 ∧
     (1 : Int) ≤ max 1 (min 50 100) ∧ (max 1 (min 50 (100 : Int))) ≤ 50) :=
  ⟨by decide, generateFromBase_clamps_count _ "base-pfp" _ 100 "me.jpg" (by decide)⟩

/-- C9: the local variation strategy is the deterministic pixel pipeline:
resize to the fixed 1024×1024 square, modulate saturation by
`1 + (i % 5) * 0.06`, brightness by `1 + (i % 3) * 0.03` and hue by
`(i % 6) * 20` degrees, and apply a blur of `0.3` exactly when
`i % 4 = 0`; being a pure function of the index, its output for a given
base image and index is reproducible. -/
theorem local_variation_deterministic (i : Nat) :
    Generator.generateSingleImageLocal i =
      [Generator.ImgOp.resize 1024 1024,
       Generator.ImgOp.modulate (1 + (i % 5 : ℚ) * 0.06)
         (1 + (i % 3 : ℚ) * 0.03) ((i % 6 : Int) * 20)]
      ++ (if i % 4 = 0 then [Generator.ImgOp.blur 0.3] else [])
      ++ [Generator.ImgOp.pngOutput 92] := by
  unfold Generator.generateSingleImageLocal
  by_cases h : i % 4 = 0
  · simp [h]
    norm_num
  · simp [h]

end Claims
